import Mathlib

/-!
Shallow embedding of `src/axdriver_block/src/ahci.rs` (the AHCI block-driver
adapter of the `axdriver_crates` repository) and proofs about its behaviour.

Modelling conventions:
* The driver targets 64-bit platforms, so `usize` and `u64` share the width
  2^64.  Machine integers are modelled as `Nat`; wrapping (release-mode Rust)
  arithmetic is made explicit with `% 2^64` where it can occur.  A Rust
  operation that panics (division by zero) is modelled as `Option` returning
  `none`.
* The external crate `ahci_driver` (functions `ahci_init`,
  `ahci_sata_read_common`, `ahci_sata_write_common`) is, per the spec, a
  black-box hardware boundary.  Each of its functions is passed to the
  modelled operation as an oracle argument.
* Raw pointers are modelled by their address as a `Nat`; `core::ptr::null_mut()`
  is address `0`.
* Fixed-size Rust arrays `[T; n]` are modelled as functions `Fin n → T`.
-/

namespace AhciSpec

/-- Width of `usize`/`u64` on the 64-bit targets this driver is built for. -/
def USIZE_MOD : Nat := 2 ^ 64

/-- Width of `u32`, used for the block count handed to the hardware boundary. -/
def U32_MOD : Nat := 2 ^ 32

/-- ATA identity-string length constant from the source (`ATA_ID_SERNO_LEN`). -/
def ATA_ID_SERNO_LEN : Nat := 20

/-- ATA identity-string length constant from the source (`ATA_ID_FW_REV_LEN`). -/
def ATA_ID_FW_REV_LEN : Nat := 8

/-- ATA identity-string length constant from the source (`ATA_ID_PROD_LEN`). -/
def ATA_ID_PROD_LEN : Nat := 40

/-- A raw pointer, modelled by its address; `null_mut()` is `0`. -/
abbrev Ptr := Nat

/-- Mirror of `struct ahci_cmd_hdr` (one hardware command-slot descriptor). -/
structure ahci_cmd_hdr where
  opts : Nat
  status : Nat
  tbl_addr_lo : Nat
  tbl_addr_hi : Nat
  reserved : Fin 4 → Nat

/-- Mirror of `struct ahci_sg` (one DMA scatter-gather entry). -/
structure ahci_sg where
  addr_lo : Nat
  addr_hi : Nat
  reserved : Nat
  flags_size : Nat

/-- Mirror of `struct ahci_ioport` (one SATA port's command/DMA resources). -/
structure ahci_ioport where
  port_mmio : Nat
  cmd_slot : Ptr
  cmd_slot_dma : Nat
  rx_fis : Nat
  rx_fis_dma : Nat
  cmd_tbl : Nat
  cmd_tbl_dma : Nat
  cmd_tbl_sg : Ptr

/-- Mirror of `struct ahci_blk_dev` (logical block device geometry/identity,
with its explicit padding fields). -/
structure ahci_blk_dev where
  lba48 : Bool
  _pad1 : Fin 7 → Nat
  lba : Nat
  blksz : Nat
  queue_depth : Nat
  _pad2 : Fin 4 → Nat
  product : Fin (ATA_ID_PROD_LEN + 1) → Nat
  _pad3 : Fin 7 → Nat
  serial : Fin (ATA_ID_SERNO_LEN + 1) → Nat
  _pad4 : Fin 3 → Nat
  revision : Fin (ATA_ID_FW_REV_LEN + 1) → Nat
  _pad5 : Fin 7 → Nat

/-- Mirror of `struct ahci_device` (one HBA descriptor). -/
structure ahci_device where
  mmio_base : Nat
  flags : Nat
  cap : Nat
  cap2 : Nat
  version : Nat
  port_map : Nat
  pio_mask : Nat
  udma_mask : Nat
  n_ports : Nat
  port_map_linkup : Nat
  port : Fin 32 → ahci_ioport
  port_idx : Nat
  blk_dev : ahci_blk_dev

/-- The zeroed port entry built inside `AhciDriver::try_new` (the `[ahci_ioport
{ ... }; 32]` initializer). -/
def zero_ioport : ahci_ioport :=
  { port_mmio := 0
    cmd_slot := 0
    cmd_slot_dma := 0
    rx_fis := 0
    rx_fis_dma := 0
    cmd_tbl := 0
    cmd_tbl_dma := 0
    cmd_tbl_sg := 0 }

/-- The zeroed logical-block-device summary built inside `AhciDriver::try_new`. -/
def zero_blk_dev : ahci_blk_dev :=
  { lba48 := false
    _pad1 := fun _ => 0
    lba := 0
    blksz := 0
    queue_depth := 0
    _pad2 := fun _ => 0
    product := fun _ => 0
    _pad3 := fun _ => 0
    serial := fun _ => 0
    _pad4 := fun _ => 0
    revision := fun _ => 0
    _pad5 := fun _ => 0 }

/-- The descriptor value `AhciDriver::try_new` builds (lines 99-137 of the
source) before handing it to the external initializer. -/
def zero_ahci_device : ahci_device :=
  { mmio_base := 0
    flags := 0
    cap := 0
    cap2 := 0
    version := 0
    port_map := 0
    pio_mask := 0
    udma_mask := 0
    n_ports := 0
    port_map_linkup := 0
    port := fun _ => zero_ioport
    port_idx := 0
    blk_dev := zero_blk_dev }

/-- Modelled from the spec: the error enumeration `DevError` of the
`axdriver_base` crate, which is part of this repository but not under the
sources provided.  The spec names the I/O kind (`DevError::Io`) and says the
adapter raises no other kind; the enumeration has further kinds, of which a
representative few are listed so that "no other kind is produced" is a
non-vacuous statement. -/
inductive DevError where
  | BadState
  | InvalidParam
  | Io
  | NoMemory
  | Unsupported
deriving DecidableEq

/-- Modelled from the spec: the device classification enumeration `DeviceType`
of the `axdriver_base` crate (not under the sources provided); the spec says
the adapter reports a fixed "block device" classification. -/
inductive DeviceType where
  | Block
  | Char
  | Net
  | Display
deriving DecidableEq

/-- Mirror of `struct AhciDriver`: the adapter owning one HBA descriptor. -/
structure AhciDriver where
  device : ahci_device

/-- One invocation of the external transfer boundary, as the adapter issues it:
the starting block and the block count after the `as u32` cast at the call
site. -/
structure IoCall where
  block_id : Nat
  count32 : Nat
deriving DecidableEq

/-- Observable outcome of one `read_block`/`write_block` call: whether the
alignment warning was logged, the boundary invocations performed (in order),
and the returned result. -/
structure IoTrace where
  align_warn : Bool
  calls : List IoCall
  result : Except DevError Unit

/-- Wrapping 64-bit addition (release-mode Rust `usize` `+`). -/
def wrap_add (a b : Nat) : Nat := (a + b) % USIZE_MOD

/-- Wrapping 64-bit subtraction of `b` from `a` for `a < 2^64` (release-mode
Rust `usize` `-`). -/
def wrap_sub (a b : Nat) : Nat := (a + USIZE_MOD - b % USIZE_MOD) % USIZE_MOD

/-- The block-count computation `(buf.len() + block_size - 1) / block_size`
shared by `read_block` (line 170) and `write_block` (line 199), in `usize`
arithmetic.  Division by zero panics in Rust (in every build mode), modelled
as `none`; the `+`/`-` wrap in release mode. -/
def block_count_rs (len blksz : Nat) : Option Nat :=
  if blksz = 0 then none
  else some (wrap_sub (wrap_add len blksz) 1 / blksz)

/-- Mirror of `AhciDriver::block_size` (line 244): returns `blk_dev.blksz`;
the `as usize` cast is the identity on the 64-bit targets modelled here. -/
def AhciDriver.block_size (drv : AhciDriver) : Nat :=
  drv.device.blk_dev.blksz

/-- Mirror of `AhciDriver::num_blocks` (line 238): returns `blk_dev.lba`. -/
def AhciDriver.num_blocks (drv : AhciDriver) : Nat :=
  drv.device.blk_dev.lba

/-- Mirror of `BaseDriverOps::device_type` for `AhciDriver` (line 158). -/
def AhciDriver.device_type (_ : AhciDriver) : DeviceType :=
  DeviceType.Block

/-- Mirror of `BaseDriverOps::device_name` for `AhciDriver` (line 162). -/
def AhciDriver.device_name (_ : AhciDriver) : String :=
  "ahci"

/-- Mirror of `AhciDriver::try_new` (lines 96-149).  The external
`ahci_init` is an oracle taking the descriptor it is given and returning the
status code together with the descriptor contents it produced by populating
that memory in place. -/
def try_new (ahci_init : ahci_device → Int × ahci_device) :
    Except DevError AhciDriver :=
  let device := zero_ahci_device
  let r := ahci_init device
  if r.1 = 0 then Except.ok ⟨r.2⟩ else Except.error DevError.Io

/-- Mirror of `AhciDriver::read_block` (lines 168-195).  The buffer is
represented by its length (its contents do not influence control flow); the
external `ahci_sata_read_common` is an oracle from (start block, `u32` block
count) to the returned `u64` transferred count.  A panic in the block-count
computation propagates as `none`. -/
def AhciDriver.read_block (drv : AhciDriver) (block_id buf_len : Nat)
    (ahci_sata_read_common : Nat → Nat → Nat) : Option IoTrace :=
  (block_count_rs buf_len drv.block_size).map fun block_count =>
    { align_warn := decide (buf_len % drv.block_size ≠ 0)
      calls := [⟨block_id, block_count % U32_MOD⟩]
      result :=
        if ahci_sata_read_common block_id (block_count % U32_MOD) = block_count
        then Except.ok () else Except.error DevError.Io }

/-- Mirror of `AhciDriver::write_block` (lines 197-229), structured exactly as
`read_block` with the write boundary oracle. -/
def AhciDriver.write_block (drv : AhciDriver) (block_id buf_len : Nat)
    (ahci_sata_write_common : Nat → Nat → Nat) : Option IoTrace :=
  (block_count_rs buf_len drv.block_size).map fun block_count =>
    { align_warn := decide (buf_len % drv.block_size ≠ 0)
      calls := [⟨block_id, block_count % U32_MOD⟩]
      result :=
        if ahci_sata_write_common block_id (block_count % U32_MOD) = block_count
        then Except.ok () else Except.error DevError.Io }

/-- Mirror of `AhciDriver::flush` (lines 231-235): unconditionally `Ok(())`. -/
def AhciDriver.flush (_ : AhciDriver) : Except DevError Unit :=
  Except.ok ()

/-- Ceiling division written from the spec's words `ceil(length / block_size)`. -/
def spec_ceil_div (len bs : Nat) : Nat :=
  if len % bs = 0 then len / bs else len / bs + 1

/-- Checker: every field of a port entry is zero (pointers null). -/
def ioport_all_zero (p : ahci_ioport) : Bool :=
  p.port_mmio == 0 && p.cmd_slot == 0 && p.cmd_slot_dma == 0 &&
  p.rx_fis == 0 && p.rx_fis_dma == 0 && p.cmd_tbl == 0 &&
  p.cmd_tbl_dma == 0 && p.cmd_tbl_sg == 0

/-- Checker: every field of the logical-block-device summary is zero, the
48-bit flag false, all explicit padding and identity bytes zero. -/
def blk_dev_all_zero (b : ahci_blk_dev) : Bool :=
  (b.lba48 == false) && decide (∀ i, b._pad1 i = 0) &&
  b.lba == 0 && b.blksz == 0 && b.queue_depth == 0 &&
  decide (∀ i, b._pad2 i = 0) && decide (∀ i, b.product i = 0) &&
  decide (∀ i, b._pad3 i = 0) && decide (∀ i, b.serial i = 0) &&
  decide (∀ i, b._pad4 i = 0) && decide (∀ i, b.revision i = 0) &&
  decide (∀ i, b._pad5 i = 0)

/-- Checker: every numeric field of the HBA descriptor is zero, all 32 port
entries all-zero, and the logical-block-device summary all-zero. -/
def device_all_zero (d : ahci_device) : Bool :=
  d.mmio_base == 0 && d.flags == 0 && d.cap == 0 && d.cap2 == 0 &&
  d.version == 0 && d.port_map == 0 && d.pio_mask == 0 && d.udma_mask == 0 &&
  d.n_ports == 0 && d.port_map_linkup == 0 &&
  decide (∀ i : Fin 32, ioport_all_zero (d.port i) = true) &&
  d.port_idx == 0 && blk_dev_all_zero d.blk_dev

/-- A driver whose populated descriptor reports block size `bs` (and is
otherwise zeroed); used to instantiate theorems at concrete geometries. -/
def dev_with_blksz (bs : Nat) : AhciDriver :=
  ⟨{ zero_ahci_device with blk_dev := { zero_blk_dev with blksz := bs } }⟩

lemma USIZE_MOD_pos : 0 < USIZE_MOD := by norm_num [USIZE_MOD]

lemma U32_MOD_pos : 0 < U32_MOD := by norm_num [U32_MOD]

/-- As long as `len + blksz` does not overflow `usize`, the wrapping
computation of `(len + blksz - 1)` agrees with the exact one. -/
lemma wrap_sub_add_eq (len blksz : Nat) (h0 : blksz ≠ 0)
    (h1 : len + blksz ≤ USIZE_MOD) :
    wrap_sub (wrap_add len blksz) 1 = len + blksz - 1 := by
  unfold wrap_add wrap_sub
  have hone : (1 : Nat) % USIZE_MOD = 1 := Nat.mod_eq_of_lt (by norm_num [USIZE_MOD])
  rw [hone]
  rcases lt_or_eq_of_le h1 with h | h
  · rw [Nat.mod_eq_of_lt h]
    have h2 : len + blksz + USIZE_MOD - 1 = (len + blksz - 1) + USIZE_MOD := by
      have : 1 ≤ blksz := Nat.one_le_iff_ne_zero.mpr h0
      omega
    rw [h2, Nat.add_mod_right, Nat.mod_eq_of_lt (by omega)]
  · rw [h, Nat.mod_self]
    have h2 : 0 + USIZE_MOD - 1 = USIZE_MOD - 1 := by omega
    rw [h2, Nat.mod_eq_of_lt (by have := USIZE_MOD_pos; omega)]

/-- The Rust formula `(len + bs - 1) / bs` computes ceiling division. -/
lemma add_sub_one_div_eq_ceil (len bs : Nat) (h0 : bs ≠ 0) :
    (len + bs - 1) / bs = spec_ceil_div len bs := by
  have hb : 0 < bs := Nat.pos_of_ne_zero h0
  unfold spec_ceil_div
  by_cases hr : len % bs = 0
  · rw [if_pos hr]
    obtain ⟨q, rfl⟩ := Nat.dvd_of_mod_eq_zero hr
    have h2 : bs * q + bs - 1 = bs * q + (bs - 1) := by omega
    rw [h2, Nat.mul_add_div hb, Nat.div_eq_of_lt (by omega),
      Nat.mul_div_cancel_left q hb]
    omega
  · rw [if_neg hr]
    have hrlt : len % bs < bs := Nat.mod_lt _ hb
    have hr1 : 1 ≤ len % bs := Nat.one_le_iff_ne_zero.mpr hr
    have key : ∀ q r, 1 ≤ r → r < bs → (bs * q + r + bs - 1) / bs = q + 1 := by
      intro q r h1 h2
      have e1 : bs * q + r + bs - 1 = bs * q + (r - 1 + bs) := by
        generalize bs * q = A
        omega
      rw [e1, Nat.mul_add_div hb, Nat.add_div_right _ hb,
        Nat.div_eq_of_lt (by omega)]
    have h3 := key (len / bs) (len % bs) hr1 hrlt
    rw [Nat.div_add_mod len bs] at h3
    exact h3

/-- The shared block-count computation of `read_block`/`write_block` returns
exactly the ceiling of `len / bs`, provided the block size is nonzero and the
addition does not overflow. -/
lemma block_count_rs_eq_ceil (len bs : Nat) (h0 : bs ≠ 0)
    (h1 : len + bs ≤ USIZE_MOD) :
    block_count_rs len bs = some (spec_ceil_div len bs) := by
  unfold block_count_rs
  rw [if_neg h0, wrap_sub_add_eq len bs h0 h1, add_sub_one_div_eq_ceil len bs h0]

/-- Unfolding of `read_block` once the block count is known. -/
lemma read_block_eq (drv : AhciDriver) (block_id buf_len : Nat)
    (hw : Nat → Nat → Nat) (c : Nat)
    (h : block_count_rs buf_len drv.block_size = some c) :
    drv.read_block block_id buf_len hw = some
      { align_warn := decide (buf_len % drv.block_size ≠ 0)
        calls := [⟨block_id, c % U32_MOD⟩]
        result := if hw block_id (c % U32_MOD) = c
          then Except.ok () else Except.error DevError.Io } := by
  unfold AhciDriver.read_block
  rw [h]
  rfl

/-- Unfolding of `write_block` once the block count is known. -/
lemma write_block_eq (drv : AhciDriver) (block_id buf_len : Nat)
    (hw : Nat → Nat → Nat) (c : Nat)
    (h : block_count_rs buf_len drv.block_size = some c) :
    drv.write_block block_id buf_len hw = some
      { align_warn := decide (buf_len % drv.block_size ≠ 0)
        calls := [⟨block_id, c % U32_MOD⟩]
        result := if hw block_id (c % U32_MOD) = c
          then Except.ok () else Except.error DevError.Io } := by
  unfold AhciDriver.write_block
  rw [h]
  rfl

/-- C1 (amended): the block count `read_block`/`write_block` compute equals
`ceil(buffer length / block_size)` (with the boundary values: length equal to
the block size gives 1, block size + 1 gives 2, and 0 gives 0); the count
requested from the external boundary is that value truncated to 32 bits,
which equals it whenever the count is below `2^32`.  Assumes a nonzero block
size and that `buf_len + block_size` does not overflow `usize`. -/
theorem C1_block_count_ceil (drv : AhciDriver) (block_id buf_len : Nat)
    (hw hw' : Nat → Nat → Nat) (h0 : drv.block_size ≠ 0)
    (h1 : buf_len + drv.block_size ≤ USIZE_MOD) :
    block_count_rs buf_len drv.block_size
      = some (spec_ceil_div buf_len drv.block_size) ∧
    (drv.read_block block_id buf_len hw).map IoTrace.calls
      = some [⟨block_id, spec_ceil_div buf_len drv.block_size % U32_MOD⟩] ∧
    (drv.write_block block_id buf_len hw').map IoTrace.calls
      = some [⟨block_id, spec_ceil_div buf_len drv.block_size % U32_MOD⟩] ∧
    (spec_ceil_div buf_len drv.block_size < U32_MOD →
      spec_ceil_div buf_len drv.block_size % U32_MOD
        = spec_ceil_div buf_len drv.block_size) ∧
    spec_ceil_div drv.block_size drv.block_size = 1 ∧
    spec_ceil_div (drv.block_size + 1) drv.block_size = 2 ∧
    spec_ceil_div 0 drv.block_size = 0 := by
  have hb : 0 < drv.block_size := Nat.pos_of_ne_zero h0
  have hbc := block_count_rs_eq_ceil buf_len drv.block_size h0 h1
  refine ⟨hbc, ?_, ?_, fun h => Nat.mod_eq_of_lt h, ?_, ?_, ?_⟩
  · rw [read_block_eq drv block_id buf_len hw _ hbc]
    rfl
  · rw [write_block_eq drv block_id buf_len hw' _ hbc]
    rfl
  · unfold spec_ceil_div
    rw [if_pos (Nat.mod_self _), Nat.div_self hb]
  · unfold spec_ceil_div
    rcases Nat.lt_or_ge 1 drv.block_size with h | h
    · rw [Nat.add_comm, Nat.add_mod_right, Nat.mod_eq_of_lt h, if_neg (by omega),
        Nat.add_div_right _ hb, Nat.div_eq_of_lt h]
    · have hbs1 : drv.block_size = 1 := by omega
      rw [hbs1]
      norm_num
  · unfold spec_ceil_div
    rw [if_pos (Nat.zero_mod _), Nat.zero_div]

/-- C1 counterexample: the claim as stated also asserts that the count
requested from the external boundary equals the ceiling, but with block size 1
and a buffer of `2^32` bytes the adapter computes `2^32` blocks and the
`as u32` cast at the call site requests 0 blocks from the boundary. -/
theorem C1_counterexample :
    ((dev_with_blksz 1).read_block 0 (2 ^ 32) (fun _ _ => 0)).map IoTrace.calls
      = some [⟨0, 0⟩] ∧
    spec_ceil_div (2 ^ 32) 1 = 2 ^ 32 ∧ (0 : Nat) ≠ 2 ^ 32 := by
  refine ⟨by decide, ?_, by norm_num⟩
  unfold spec_ceil_div
  norm_num

/-- C1 witness: at block size 512 and a 600-byte buffer the computed block
count is the ceiling `spec_ceil_div 600 512`. -/
theorem C1_witness :
    (dev_with_blksz 512).block_size ≠ 0 ∧
    600 + (dev_with_blksz 512).block_size ≤ USIZE_MOD ∧
    block_count_rs 600 (dev_with_blksz 512).block_size
      = some (spec_ceil_div 600 (dev_with_blksz 512).block_size) :=
  ⟨by decide, by decide,
    (C1_block_count_ceil (dev_with_blksz 512) 0 600 (fun _ _ => 2)
      (fun _ _ => 2) (by decide) (by decide)).1⟩

/-- C2: for a nonzero block size, `read_block`/`write_block` return `Ok`
exactly when the boundary's returned transferred count equals the computed
(requested) block count, return `DevError.Io` on any mismatch, produce no
other error kind, and invoke the boundary exactly once (no retry). -/
theorem C2_result_translation (drv : AhciDriver) (block_id buf_len : Nat)
    (hw hw' : Nat → Nat → Nat) (h0 : drv.block_size ≠ 0) :
    ∃ c, block_count_rs buf_len drv.block_size = some c ∧
      (∃ t, drv.read_block block_id buf_len hw = some t ∧
        (t.result = Except.ok () ↔ hw block_id (c % U32_MOD) = c) ∧
        (t.result = Except.ok () ∨ t.result = Except.error DevError.Io) ∧
        t.calls.length = 1) ∧
      (∃ t, drv.write_block block_id buf_len hw' = some t ∧
        (t.result = Except.ok () ↔ hw' block_id (c % U32_MOD) = c) ∧
        (t.result = Except.ok () ∨ t.result = Except.error DevError.Io) ∧
        t.calls.length = 1) := by
  refine ⟨wrap_sub (wrap_add buf_len drv.block_size) 1 / drv.block_size,
    by unfold block_count_rs; rw [if_neg h0], ⟨?_, ?_⟩⟩
  · refine ⟨_, read_block_eq drv block_id buf_len hw _
      (by unfold block_count_rs; rw [if_neg h0]), ?_, ?_, rfl⟩
    · constructor
      · intro h
        by_contra hne
        simp only [if_neg hne] at h
        exact Except.noConfusion h
      · intro h
        simp only [if_pos h]
    · by_cases h : hw block_id
          (wrap_sub (wrap_add buf_len drv.block_size) 1 / drv.block_size % U32_MOD)
          = wrap_sub (wrap_add buf_len drv.block_size) 1 / drv.block_size
      · exact Or.inl (by simp only [if_pos h])
      · exact Or.inr (by simp only [if_neg h])
  · refine ⟨_, write_block_eq drv block_id buf_len hw' _
      (by unfold block_count_rs; rw [if_neg h0]), ?_, ?_, rfl⟩
    · constructor
      · intro h
        by_contra hne
        simp only [if_neg hne] at h
        exact Except.noConfusion h
      · intro h
        simp only [if_pos h]
    · by_cases h : hw' block_id
          (wrap_sub (wrap_add buf_len drv.block_size) 1 / drv.block_size % U32_MOD)
          = wrap_sub (wrap_add buf_len drv.block_size) 1 / drv.block_size
      · exact Or.inl (by simp only [if_pos h])
      · exact Or.inr (by simp only [if_neg h])

/-- C2 witness: block size 512, a 512-byte buffer and a boundary returning 1
block give `Ok`; the instantiated statement is the conclusion of the theorem
at those inputs. -/
theorem C2_witness :
    (dev_with_blksz 512).block_size ≠ 0 ∧
    ∃ c, block_count_rs 512 (dev_with_blksz 512).block_size = some c ∧
      (∃ t, (dev_with_blksz 512).read_block 7 512 (fun _ _ => 1) = some t ∧
        (t.result = Except.ok () ↔ (fun _ _ => 1 : Nat → Nat → Nat) 7 (c % U32_MOD) = c) ∧
        (t.result = Except.ok () ∨ t.result = Except.error DevError.Io) ∧
        t.calls.length = 1) ∧
      (∃ t, (dev_with_blksz 512).write_block 7 512 (fun _ _ => 1) = some t ∧
        (t.result = Except.ok () ↔ (fun _ _ => 1 : Nat → Nat → Nat) 7 (c % U32_MOD) = c) ∧
        (t.result = Except.ok () ∨ t.result = Except.error DevError.Io) ∧
        t.calls.length = 1) :=
  ⟨by decide,
    C2_result_translation (dev_with_blksz 512) 7 512 (fun _ _ => 1)
      (fun _ _ => 1) (by decide)⟩

/-- C3: `try_new` returns the adapter populated by the external initializer
exactly when the initializer's status is 0, and returns `DevError.Io` on any
nonzero status; an `Ok` result implies status 0, so no adapter escapes a
failed initialization. -/
theorem C3_try_new_status (ahci_init : ahci_device → Int × ahci_device) :
    ((ahci_init zero_ahci_device).1 = 0 →
      try_new ahci_init = Except.ok ⟨(ahci_init zero_ahci_device).2⟩) ∧
    ((ahci_init zero_ahci_device).1 ≠ 0 →
      try_new ahci_init = Except.error DevError.Io) ∧
    (∀ drv, try_new ahci_init = Except.ok drv →
      (ahci_init zero_ahci_device).1 = 0 ∧
      drv = ⟨(ahci_init zero_ahci_device).2⟩) := by
  unfold try_new
  refine ⟨fun h => by rw [if_pos h], fun h => by rw [if_neg h], fun drv h => ?_⟩
  by_cases h0 : (ahci_init zero_ahci_device).1 = 0
  · rw [if_pos h0] at h
    exact ⟨h0, (Except.ok.injEq _ _ ▸ h).symm⟩
  · rw [if_neg h0] at h
    exact absurd h (fun hh => Except.noConfusion hh)

/-- C3 witness: an initializer reporting status 0 yields the populated
adapter. -/
theorem C3_witness :
    try_new (fun d => ((0 : Int), d)) = Except.ok ⟨zero_ahci_device⟩ :=
  (C3_try_new_status (fun d => ((0 : Int), d))).1 rfl

/-- C4: a buffer length that is not a multiple of the (nonzero) block size
makes `read_block`/`write_block` record the alignment warning, still invoke
the boundary with the rounded-up block count, and still succeed whenever the
boundary returns that count — misalignment alone never produces an error and
never skips the transfer. -/
theorem C4_misaligned_warn (drv : AhciDriver) (block_id buf_len : Nat)
    (hw hw' : Nat → Nat → Nat) (h0 : drv.block_size ≠ 0)
    (hmis : buf_len % drv.block_size ≠ 0)
    (h1 : buf_len + drv.block_size ≤ USIZE_MOD) :
    ∃ t u, drv.read_block block_id buf_len hw = some t ∧
      drv.write_block block_id buf_len hw' = some u ∧
      t.align_warn = true ∧ u.align_warn = true ∧
      t.calls = [⟨block_id, spec_ceil_div buf_len drv.block_size % U32_MOD⟩] ∧
      u.calls = [⟨block_id, spec_ceil_div buf_len drv.block_size % U32_MOD⟩] ∧
      (hw block_id (spec_ceil_div buf_len drv.block_size % U32_MOD)
          = spec_ceil_div buf_len drv.block_size → t.result = Except.ok ()) ∧
      (hw' block_id (spec_ceil_div buf_len drv.block_size % U32_MOD)
          = spec_ceil_div buf_len drv.block_size → u.result = Except.ok ()) := by
  have hbc := block_count_rs_eq_ceil buf_len drv.block_size h0 h1
  refine ⟨_, _, read_block_eq drv block_id buf_len hw _ hbc,
    write_block_eq drv block_id buf_len hw' _ hbc,
    by simp [hmis], by simp [hmis], rfl, rfl, ?_, ?_⟩
  · intro h
    simp only [if_pos h]
  · intro h
    simp only [if_pos h]

/-- C4 witness: the spec's scenario — block size 512, a misaligned 600-byte
buffer, a boundary transferring 2 blocks: the warning is recorded, 2 blocks
are requested, and the operation succeeds. -/
theorem C4_witness :
    (dev_with_blksz 512).block_size ≠ 0 ∧
    600 % (dev_with_blksz 512).block_size ≠ 0 ∧
    (∃ t u, (dev_with_blksz 512).read_block 0 600 (fun _ _ => 2) = some t ∧
      (dev_with_blksz 512).write_block 0 600 (fun _ _ => 2) = some u ∧
      t.align_warn = true ∧ u.align_warn = true ∧
      t.calls = [⟨0, spec_ceil_div 600 (dev_with_blksz 512).block_size % U32_MOD⟩] ∧
      u.calls = [⟨0, spec_ceil_div 600 (dev_with_blksz 512).block_size % U32_MOD⟩] ∧
      ((fun _ _ => 2 : Nat → Nat → Nat) 0
          (spec_ceil_div 600 (dev_with_blksz 512).block_size % U32_MOD)
          = spec_ceil_div 600 (dev_with_blksz 512).block_size →
        t.result = Except.ok ()) ∧
      ((fun _ _ => 2 : Nat → Nat → Nat) 0
          (spec_ceil_div 600 (dev_with_blksz 512).block_size % U32_MOD)
          = spec_ceil_div 600 (dev_with_blksz 512).block_size →
        u.result = Except.ok ())) :=
  ⟨by decide, by decide,
    C4_misaligned_warn (dev_with_blksz 512) 0 600 (fun _ _ => 2)
      (fun _ _ => 2) (by decide) (by decide) (by decide)⟩

/-- C5: the descriptor `try_new` builds and hands to the external initializer
is all-zero — every numeric field of the HBA descriptor, of all 32 port
entries and of the logical-block-device summary is 0, every flag is false,
every owned-buffer pointer is null, and all explicit padding bytes are 0. -/
theorem C5_descriptor_all_zero : device_all_zero zero_ahci_device = true := by
  decide

/-- C6: `flush` returns success unconditionally for every adapter; its
definition consults no hardware boundary (it takes no oracle) and does not
depend on prior writes. -/
theorem C6_flush_always_ok (drv : AhciDriver) : drv.flush = Except.ok () :=
  rfl

/-- C7: `block_size` returns exactly the logical block device's `blksz` field
and `num_blocks` exactly its `lba` field; both are pure functions of the
adapter, so two adapters with the same device state (in particular, repeated
calls on an unchanged adapter) give equal values. -/
theorem C7_geometry_pure (drv drv2 : AhciDriver) :
    drv.block_size = drv.device.blk_dev.blksz ∧
    drv.num_blocks = drv.device.blk_dev.lba ∧
    (drv2.device = drv.device →
      drv2.block_size = drv.block_size ∧ drv2.num_blocks = drv.num_blocks) := by
  refine ⟨rfl, rfl, fun h => ?_⟩
  unfold AhciDriver.block_size AhciDriver.num_blocks
  rw [h]
  exact ⟨rfl, rfl⟩

/-- C7 witness: equal device state gives equal geometry answers, at a
concrete adapter. -/
theorem C7_witness :
    (dev_with_blksz 512).block_size = (dev_with_blksz 512).block_size ∧
    (dev_with_blksz 512).num_blocks = (dev_with_blksz 512).num_blocks :=
  (C7_geometry_pure (dev_with_blksz 512) (dev_with_blksz 512)).2.2 rfl

/-- C8: `device_type` and `device_name` are pure and total — for every
adapter they return the fixed block classification and the fixed name
string, with no failure path. -/
theorem C8_identity_fixed (drv : AhciDriver) :
    drv.device_type = DeviceType.Block ∧ drv.device_name = "ahci" :=
  ⟨rfl, rfl⟩

/-- C9: `read_block`/`write_block` return a result exactly when the block
size is nonzero; with `blksz = 0` — the value left by zero-initialization —
the block-count division panics (modelled as `none`) instead of producing an
error result, as happens on the zero-initialized descriptor. -/
theorem C9_zero_block_size_panics (drv : AhciDriver) (block_id buf_len : Nat)
    (hw hw' : Nat → Nat → Nat) :
    ((drv.read_block block_id buf_len hw).isSome ↔ drv.block_size ≠ 0) ∧
    ((drv.write_block block_id buf_len hw').isSome ↔ drv.block_size ≠ 0) ∧
    AhciDriver.block_size ⟨zero_ahci_device⟩ = 0 ∧
    AhciDriver.read_block ⟨zero_ahci_device⟩ block_id buf_len hw = none ∧
    AhciDriver.write_block ⟨zero_ahci_device⟩ block_id buf_len hw' = none := by
  refine ⟨?_, ?_, rfl, ?_, ?_⟩
  · unfold AhciDriver.read_block block_count_rs
    by_cases h : drv.block_size = 0
    · simp [h]
    · simp [h]
  · unfold AhciDriver.write_block block_count_rs
    by_cases h : drv.block_size = 0
    · simp [h]
    · simp [h]
  · unfold AhciDriver.read_block block_count_rs
    simp [AhciDriver.block_size, zero_ahci_device, zero_blk_dev]
  · unfold AhciDriver.write_block block_count_rs
    simp [AhciDriver.block_size, zero_ahci_device, zero_blk_dev]

/-- C10: when the computed block count is at least `2^32`, the `as u32` cast
makes the adapter request `count % 2^32` blocks from the boundary while the
success check still compares the boundary's returned `u64` against the full
untruncated count. -/
theorem C10_count_truncation (drv : AhciDriver) (block_id buf_len : Nat)
    (hw hw' : Nat → Nat → Nat) (h0 : drv.block_size ≠ 0)
    (h1 : buf_len + drv.block_size ≤ USIZE_MOD)
    (hbig : U32_MOD ≤ spec_ceil_div buf_len drv.block_size) :
    ∃ t u, drv.read_block block_id buf_len hw = some t ∧
      drv.write_block block_id buf_len hw' = some u ∧
      t.calls = [⟨block_id, spec_ceil_div buf_len drv.block_size % U32_MOD⟩] ∧
      u.calls = [⟨block_id, spec_ceil_div buf_len drv.block_size % U32_MOD⟩] ∧
      spec_ceil_div buf_len drv.block_size % U32_MOD
        ≠ spec_ceil_div buf_len drv.block_size ∧
      (t.result = Except.ok () ↔
        hw block_id (spec_ceil_div buf_len drv.block_size % U32_MOD)
          = spec_ceil_div buf_len drv.block_size) ∧
      (u.result = Except.ok () ↔
        hw' block_id (spec_ceil_div buf_len drv.block_size % U32_MOD)
          = spec_ceil_div buf_len drv.block_size) := by
  have hbc := block_count_rs_eq_ceil buf_len drv.block_size h0 h1
  have hlt : spec_ceil_div buf_len drv.block_size % U32_MOD < U32_MOD :=
    Nat.mod_lt _ U32_MOD_pos
  refine ⟨_, _, read_block_eq drv block_id buf_len hw _ hbc,
    write_block_eq drv block_id buf_len hw' _ hbc, rfl, rfl,
    by omega, ?_, ?_⟩
  · constructor
    · intro h
      by_contra hne
      simp only [if_neg hne] at h
      exact Except.noConfusion h
    · intro h
      simp only [if_pos h]
  · constructor
    · intro h
      by_contra hne
      simp only [if_neg hne] at h
      exact Except.noConfusion h
    · intro h
      simp only [if_pos h]

/-- C10 witness: block size 1 with a `2^32`-byte buffer computes `2^32`
blocks, requests 0 blocks from the boundary, and succeeds only if the
boundary nevertheless reports `2^32` transferred blocks. -/
theorem C10_witness :
    ∃ t u, (dev_with_blksz 1).read_block 0 (2 ^ 32) (fun _ _ => 0) = some t ∧
      (dev_with_blksz 1).write_block 0 (2 ^ 32) (fun _ _ => 0) = some u ∧
      t.calls = [⟨0, spec_ceil_div (2 ^ 32) (dev_with_blksz 1).block_size % U32_MOD⟩] ∧
      u.calls = [⟨0, spec_ceil_div (2 ^ 32) (dev_with_blksz 1).block_size % U32_MOD⟩] ∧
      spec_ceil_div (2 ^ 32) (dev_with_blksz 1).block_size % U32_MOD
        ≠ spec_ceil_div (2 ^ 32) (dev_with_blksz 1).block_size ∧
      (t.result = Except.ok () ↔
        (fun _ _ => 0 : Nat → Nat → Nat) 0
            (spec_ceil_div (2 ^ 32) (dev_with_blksz 1).block_size % U32_MOD)
          = spec_ceil_div (2 ^ 32) (dev_with_blksz 1).block_size) ∧
      (u.result = Except.ok () ↔
        (fun _ _ => 0 : Nat → Nat → Nat) 0
            (spec_ceil_div (2 ^ 32) (dev_with_blksz 1).block_size % U32_MOD)
          = spec_ceil_div (2 ^ 32) (dev_with_blksz 1).block_size) :=
  C10_count_truncation (dev_with_blksz 1) 0 (2 ^ 32) (fun _ _ => 0)
    (fun _ _ => 0) (by decide) (by decide)
    (by unfold spec_ceil_div AhciDriver.block_size dev_with_blksz U32_MOD; norm_num)

end AhciSpec
